import Mathlib

/-!
Verification development for the vital-signs evaluation pipeline of
`backend/ai_analysis.py` (class `VitalSignsAnalyzer`) together with the
data model of `backend/models.py`.

Modelling conventions:
* Python floats are modelled as rationals (`ℚ`); every numeric literal in
  the source (threshold bounds, sensor values, confidence scores) is exactly
  representable, so all comparisons taken by the code coincide with the
  rational ones.
* A raw reading is a Python dict; the analyzer only ever accesses the keys
  `sensor_type` and `value` (via `dict.get`), so a reading is modelled as a
  record of those two optional fields.  Per `models.py` (`VitalSign.value :
  float`) a present value is numeric.
* `uuid.uuid4()` and `datetime.utcnow()` (the `default_factory` fields of
  `Alert` and `AIAnalysisResponse` in `models.py`) are ambient effects; the
  core model below omits them, and `generate_fallback_analysis_full` re-adds
  them as an explicit supply of fresh ids/timestamps, one draw per
  constructed object, in construction order.
* `json.loads` is an external library routine; it is passed in as a
  parameter `jparse : String → Option JValue` (`none` models a raised
  `JSONDecodeError`).  The brace-scanning that chooses what to parse is
  modelled exactly (`str.find` / `str.rfind` semantics, -1 on absence).
* Free-text fields (alert titles, messages, assessments) are rebuilt with
  the same string operations the source uses; Python numeric rendering
  inside f-strings is abstracted by `showVal`.  No claim inspects the exact
  rendering, only that it is a fixed function of the inputs.
-/

/-- Alert severity levels, from `models.py` `AlertLevel`. -/
inductive AlertLevel where
  | normal
  | warning
  | critical
  | emergency
deriving DecidableEq, Repr

/-- A raw vital-sign reading as consumed by `VitalSignsAnalyzer`: the analyzer
only reads the dict keys `sensor_type` and `value`, both via `.get`, so both
are optional here.  A present `value` is numeric (`models.py`: `value : float`). -/
structure Reading where
  sensor_type : Option String
  value : Option ℚ
deriving DecidableEq, Repr

/-- One row of the threshold table: the `normal`, `warning` and `critical`
bands for a sensor type (`ai_analysis.py` lines 20-26). -/
structure Bands where
  normal : ℚ × ℚ
  warning : ℚ × ℚ
  critical : ℚ × ℚ
deriving DecidableEq, Repr

/-- The static threshold table `self.thresholds` from
`VitalSignsAnalyzer.__init__` (`ai_analysis.py` lines 20-26). -/
def thresholds : String → Option Bands
  | "heart_rate" => some ⟨(60, 100), (50, 120), (40, 150)⟩
  | "blood_pressure" => some ⟨(90, 140), (80, 160), (70, 180)⟩
  | "oxygen_saturation" => some ⟨(95, 100), (90, 94), (0, 89)⟩
  | "temperature" => some ⟨(36, mkRat 75 2), (35, mkRat 77 2), (34, 40)⟩
  | "gsr" => some ⟨(200, 800), (100, 1000), (50, 1500)⟩
  | _ => none

/-- The valid members of the `SensorType` enum (`models.py` lines 7-15);
`SensorType(s)` succeeds exactly on these strings. -/
def validSensorType (s : String) : Bool :=
  s = "heart_rate" || s = "blood_pressure" || s = "oxygen_saturation" ||
  s = "temperature" || s = "gsr" || s = "posture" || s = "pressure"

/-- Abstraction of Python numeric rendering inside f-strings (`f"{value}"`).
Whole numbers print as integers; other rationals print as fractions (Python
would print a decimal — no claim inspects this rendering). -/
def showVal (q : ℚ) : String :=
  if q.den = 1 then toString q.num else toString q.num ++ "/" ++ toString q.den

/-- Python `str.title()` restricted to the strings it is applied to
(threshold-table keys after `replace('_', ' ')`: lowercase ASCII words
separated by single spaces): capitalize each space-separated word. -/
def pyTitle (s : String) : String :=
  String.intercalate " " ((s.splitOn " ").map String.capitalize)

/-- The alert title built at `ai_analysis.py` line 258:
`f"{sensor_type.replace('_', ' ').title()} Anômalo"`. -/
def fallbackTitle (sensor_type : String) : String :=
  pyTitle (String.intercalate " " (sensor_type.splitOn "_")) ++ " Anômalo"

/-- The alert message built at `ai_analysis.py` line 259:
`f"Valor {value} fora do normal ({thresholds['normal']})"`. -/
def fallbackMessage (value : ℚ) (normal : ℚ × ℚ) : String :=
  "Valor " ++ showVal value ++ " fora do normal ((" ++ showVal normal.1 ++
    ", " ++ showVal normal.2 ++ "))"

/-- A medical alert, from `models.py` `Alert`, without the two
`default_factory` fields `id` and `timestamp` (ambient uuid/clock draws;
see `AlertFull` below for the enriched form). -/
structure Alert where
  level : AlertLevel
  title : String
  message : String
  sensor_type : Option String := none
  trigger_value : Option ℚ := none
  normal_range : Option String := none
  ai_analysis : Option String := none
  resolved : Bool := false
deriving DecidableEq, Repr

/-- The structured analysis result, from `models.py` `AIAnalysisResponse`,
without the `default_factory` fields `id` and `timestamp`. -/
structure AIAnalysisResponse where
  analysis_summary : String
  health_status : String
  individual_assessments : List (String × String)
  combined_assessment : String
  recommendations : List String
  alerts_generated : List Alert
  confidence_score : ℚ
deriving DecidableEq, Repr

/-- The alert (if any) generated for one reading by the rule-based loop body
of `_generate_fallback_analysis` (`ai_analysis.py` lines 245-263):
`sensor_type = reading.get('sensor_type')`, `value = reading.get('value', 0)`;
a reading whose sensor type is in the threshold table and whose value lies
outside the `normal` band yields one alert, escalated to `critical` when the
value also lies outside the `warning` band. -/
def alertOf (r : Reading) : Option Alert :=
  match r.sensor_type with
  | none => none
  | some s =>
    match thresholds s with
    | none => none
    | some b =>
      let v := r.value.getD 0
      if b.normal.1 ≤ v ∧ v ≤ b.normal.2 then none
      else
        let lvl := if b.warning.1 ≤ v ∧ v ≤ b.warning.2 then
          AlertLevel.warning else AlertLevel.critical
        some { level := lvl
               title := fallbackTitle s
               message := fallbackMessage v b.normal
               sensor_type := some s
               trigger_value := some v }

/-- Python-dict assignment `d[k] = v` on an association list: overwrite in
place when the key exists (insertion order of keys is preserved), append
otherwise. -/
def dictInsert (d : List (String × α)) (k : String) (v : α) : List (String × α) :=
  match d with
  | [] => [(k, v)]
  | (k0, v0) :: rest =>
    if k0 = k then (k0, v) :: rest else (k0, v0) :: dictInsert rest k v

/-- The per-reading assessment update of `_generate_fallback_analysis`
(`ai_analysis.py` line 265): for a thresholded sensor type, record
`"Valor atual: {value} - Normal|Atenção"`, later readings overwriting
earlier ones (dict assignment, last wins). -/
def assessStep (d : List (String × String)) (r : Reading) : List (String × String) :=
  match r.sensor_type with
  | none => d
  | some s =>
    match thresholds s with
    | none => d
    | some b =>
      let v := r.value.getD 0
      dictInsert d s ("Valor atual: " ++ showVal v ++ " - " ++
        (if b.normal.1 ≤ v ∧ v ≤ b.normal.2 then "Normal" else "Atenção"))

/-- The last ten elements of a list, Python `xs[-10:]`. -/
def lastTen (vs : List Reading) : List Reading :=
  vs.drop (vs.length - 10)

/-- `VitalSignsAnalyzer._generate_fallback_analysis` (`ai_analysis.py` lines
238-275): rule-based analysis of the last 10 readings.  The single Python
loop both collects alerts (in reading order) and updates the assessment
dict; it is rendered here as a `filterMap` for the alerts and a fold for the
assessments, which produce exactly the loop's final lists. -/
def generate_fallback_analysis (vital_signs : List Reading) : AIAnalysisResponse :=
  let recent := lastTen vital_signs
  let alerts := recent.filterMap alertOf
  let assessments := recent.foldl assessStep []
  { analysis_summary := "Análise baseada em regras de fallback"
    health_status := if alerts.isEmpty then "normal" else "attention"
    individual_assessments := assessments
    combined_assessment := "Análise realizada por regras automáticas"
    recommendations := ["Monitorar sinais vitais", "Consultar médico se necessário"]
    alerts_generated := alerts
    confidence_score := mkRat 3 5 }

/-- Python `abs` on a numeric value. -/
def pyAbs (q : ℚ) : ℚ := if q < 0 then -q else q

/-- `VitalSignsAnalyzer._calculate_trend` (`ai_analysis.py` lines 84-99). -/
def calculate_trend (values : List ℚ) : String :=
  if values.length < 2 then "stable"
  else
    let recent := if 3 ≤ values.length then values.drop (values.length - 3) else values
    if recent.length < 2 then "stable"
    else
      let diff := recent.getLastD 0 - recent.headD 0
      if pyAbs diff < mkRat 1 10 then "stable"
      else if 0 < diff then "increasing"
      else "decreasing"

/-- Per-sensor statistics, from `_prepare_analysis_data`
(`ai_analysis.py` lines 66-74). -/
structure SensorStats where
  count : Nat
  average : ℚ
  min : ℚ
  max : ℚ
  latest : ℚ
  trend : String
deriving DecidableEq, Repr

/-- Python `min(values)` on a nonempty list (0 on the empty list, which the
source never reaches). -/
def listMin : List ℚ → ℚ
  | [] => 0
  | x :: xs => xs.foldl min x

/-- Python `max(values)` on a nonempty list (0 on the empty list, which the
source never reaches). -/
def listMax : List ℚ → ℚ
  | [] => 0
  | x :: xs => xs.foldl max x

/-- Python `sum(values)`. -/
def listSum (l : List ℚ) : ℚ := l.foldl (· + ·) 0

/-- `dict.setdefault`-style append used by the grouping loop of
`_prepare_analysis_data` (`ai_analysis.py` lines 55-60): append `r` to the
list at key `k`, creating the key (at the end, Python dict insertion order)
when absent. -/
def dictAppend (d : List (String × List Reading)) (k : String) (r : Reading) :
    List (String × List Reading) :=
  match d with
  | [] => [(k, [r])]
  | (k0, rs) :: rest =>
    if k0 = k then (k0, rs ++ [r]) :: rest else (k0, rs) :: dictAppend rest k r

/-- Association-list lookup, Python `d[k]` / `k in d`. -/
def dictFind (d : List (String × α)) (k : String) : Option α :=
  match d with
  | [] => none
  | (k0, v) :: rest => if k0 = k then some v else dictFind rest k

/-- The statistics computed for one sensor type's reading group
(`ai_analysis.py` lines 64-74): `values = [r['value'] for r in readings if
'value' in r]`; a group with no values gets no statistics entry. -/
def statsOfGroup (readings : List Reading) : Option SensorStats :=
  let values := readings.filterMap (·.value)
  if values.isEmpty then none
  else some
    { count := values.length
      average := listSum values / values.length
      min := listMin values
      max := listMax values
      latest := values.getLastD 0
      trend := calculate_trend values }

/-- The patient profile is consumed read-only (it only enriches the advisory
prompt); the analyzer treats it as an opaque dict. -/
abbrev PatientProfile := List (String × String)

/-- Output of `_prepare_analysis_data` (`ai_analysis.py` lines 50-82).  The
`timestamp` field (`datetime.utcnow().isoformat()`, an ambient clock read
feeding only the prompt) is omitted. -/
structure AnalysisData where
  grouped_data : List (String × List Reading)
  statistics : List (String × SensorStats)
  patient_profile : PatientProfile
  total_readings : Nat
deriving DecidableEq, Repr

/-- `VitalSignsAnalyzer._prepare_analysis_data` (`ai_analysis.py` lines
50-82): group readings by `reading.get('sensor_type', 'unknown')` in arrival
order, then compute statistics per group from the readings that carry a
`value` field. -/
def prepare_analysis_data (vital_signs : List Reading)
    (patient_profile : Option PatientProfile) : AnalysisData :=
  let grouped := vital_signs.foldl
    (fun d r => dictAppend d (r.sensor_type.getD "unknown") r) []
  { grouped_data := grouped
    statistics := grouped.filterMap
      (fun p => (statsOfGroup p.2).map (fun st => (p.1, st)))
    patient_profile := patient_profile.getD []
    total_readings := vital_signs.length }

/-- A parsed JSON value, the result type of the external `json.loads`
(objects keep field order; numbers are modelled as rationals). -/
inductive JValue where
  | null
  | bool (b : Bool)
  | num (q : ℚ)
  | str (s : String)
  | arr (items : List JValue)
  | obj (fields : List (String × JValue))

/-- Python `dict.get(k)` on a parsed JSON object. -/
def jget (fields : List (String × JValue)) (k : String) : Option JValue :=
  (fields.find? (fun p => p.1 = k)).map (·.2)

/-- Python `str.find(c)`: index of the first occurrence, `-1` when absent. -/
def pyFind (s : String) (c : Char) : Int :=
  match s.data.findIdx? (· = c) with
  | some i => (i : Int)
  | none => -1

/-- Python `str.rfind(c)`: index of the last occurrence, `-1` when absent. -/
def pyRFind (s : String) (c : Char) : Int :=
  match s.data.reverse.findIdx? (· = c) with
  | some i => (s.data.length : Int) - 1 - (i : Int)
  | none => -1

/-- Python slice `s[a:b]` for `0 ≤ a ≤ b` (the only case the source
reaches). -/
def pySlice (s : String) (a b : Int) : String :=
  String.mk ((s.data.drop a.toNat).take (b.toNat - a.toNat))

/-- `VitalSignsAnalyzer._parse_text_response` (`ai_analysis.py` lines
226-236): the degraded-text parse applied when no JSON object is found in
the advisory response. -/
def parse_text_response (text_response : String) : JValue :=
  .obj [("health_status", .str "attention"),
        ("analysis_summary",
          .str ("Análise realizada: " ++ text_response.take 200 ++ "...")),
        ("individual_assessments", .obj []),
        ("combined_assessment", .str "Análise baseada em resposta textual"),
        ("recommendations", .arr [.str "Consultar médico se sintomas persistirem"]),
        ("alerts", .arr []),
        ("confidence_score", .num (mkRat 1 2))]

/-- The `ai_analysis` text attached to every reconciler-built alert
(`ai_analysis.py` line 207).  Python parses
`gemini_response[:500] + "..." if len(gemini_response) > 500 else gemini_response`
as `(gemini_response[:500] + "...") if ... else ...`, so a long response
yields a 503-character string. -/
def truncatedAnalysis (gemini_response : String) : String :=
  if 500 < gemini_response.length then gemini_response.take 500 ++ "..."
  else gemini_response

/-- `AlertLevel(s)`: the enum constructor, raising (modelled as `none`) on
any string outside the enum. -/
def alertLevelOfString (s : String) : Option AlertLevel :=
  if s = "normal" then some .normal
  else if s = "warning" then some .warning
  else if s = "critical" then some .critical
  else if s = "emergency" then some .emergency
  else none

/-- Construction of one reconciler alert from one entry of the parsed
`alerts` list (`ai_analysis.py` lines 202-208).  `.error ()` models a raised
exception: `.get` on a non-dict entry, `AlertLevel(...)` on an invalid
level, or pydantic validation of a non-string field / invalid sensor type.
Absent `level`, `title`, `message` take the source's `.get` defaults; every
constructed alert carries the (truncated) raw advisory text as
`ai_analysis`. -/
def buildAlert (gemini_response : String) (entry : JValue) : Except Unit Alert :=
  match entry with
  | .obj fields =>
    match (jget fields "level").getD (.str "warning"),
          (jget fields "title").getD (.str "Alerta IA"),
          (jget fields "message").getD (.str "Anomalia detectada") with
    | .str lvlStr, .str title, .str message =>
      match alertLevelOfString lvlStr, jget fields "sensor_type" with
      | some lvl, none =>
        .ok { level := lvl, title := title, message := message,
              sensor_type := none,
              ai_analysis := some (truncatedAnalysis gemini_response) }
      | some lvl, some .null =>
        .ok { level := lvl, title := title, message := message,
              sensor_type := none,
              ai_analysis := some (truncatedAnalysis gemini_response) }
      | some lvl, some (.str st) =>
        if validSensorType st then
          .ok { level := lvl, title := title, message := message,
                sensor_type := some st,
                ai_analysis := some (truncatedAnalysis gemini_response) }
        else .error ()
      | _, _ => .error ()
    | _, _, _ => .error ()
  | _ => .error ()

/-- Read a string-valued JSON field (pydantic `str` validation; a non-string
value is modelled as a validation error). -/
def asStr : JValue → Except Unit String
  | .str s => pure s
  | _ => throw ()

/-- Read a string-to-string JSON object (pydantic `Dict[str, str]`). -/
def asStrMap : JValue → Except Unit (List (String × String))
  | .obj fields => fields.mapM (fun p => do pure (p.1, ← asStr p.2))
  | _ => throw ()

/-- Read a list of strings (pydantic `List[str]`). -/
def asStrList : JValue → Except Unit (List String)
  | .arr items => items.mapM asStr
  | _ => throw ()

/-- Read a numeric JSON field (pydantic `float`). -/
def asNum : JValue → Except Unit ℚ
  | .num q => pure q
  | _ => throw ()

/-- The `try` body of `VitalSignsAnalyzer._process_gemini_response`
(`ai_analysis.py` lines 187-220): locate the first `\x7b` and last `\x7d`,
parse the slice with `json.loads` (the `jparse` parameter; `none` = raised
`JSONDecodeError`), fall back to `parse_text_response` when no brace pair is
found, then build the alerts and the structured response with `.get`
defaults.  `.error ()` models any exception escaping the `try` body. -/
def process_core (jparse : String → Option JValue) (gemini_response : String) :
    Except Unit AIAnalysisResponse := do
  let json_start := pyFind gemini_response '{'
  let json_end := pyRFind gemini_response '}' + 1
  let ai_data ←
    if json_start ≠ -1 ∧ json_start < json_end then
      match jparse (pySlice gemini_response json_start json_end) with
      | some v => pure v
      | none => throw ()
    else
      pure (parse_text_response gemini_response)
  let fields ← match ai_data with
    | .obj fields => pure fields
    | _ => throw ()
  let alertEntries ← match jget fields "alerts" with
    | none => pure []
    | some (.arr items) => pure items
    | some (.str s) => if s.isEmpty then pure [] else throw ()
    | some _ => throw ()
  let alerts ← alertEntries.mapM (buildAlert gemini_response)
  let summary ← match jget fields "analysis_summary" with
    | none => pure "Análise realizada"
    | some v => asStr v
  let status ← match jget fields "health_status" with
    | none => pure "normal"
    | some v => asStr v
  let assessments ← match jget fields "individual_assessments" with
    | none => pure []
    | some v => asStrMap v
  let combined ← match jget fields "combined_assessment" with
    | none => pure "Sinais vitais analisados"
    | some v => asStr v
  let recs ← match jget fields "recommendations" with
    | none => pure []
    | some v => asStrList v
  let confidence ← match jget fields "confidence_score" with
    | none => pure (mkRat 7 10)
    | some v => asNum v
  pure { analysis_summary := summary
         health_status := status
         individual_assessments := assessments
         combined_assessment := combined
         recommendations := recs
         alerts_generated := alerts
         confidence_score := confidence }

/-- `VitalSignsAnalyzer._process_gemini_response` (`ai_analysis.py` lines
184-224): the `try` body above, with any raised exception converted into
`_generate_fallback_analysis(vital_signs)`. -/
def process_gemini_response (jparse : String → Option JValue)
    (gemini_response : String) (vital_signs : List Reading) : AIAnalysisResponse :=
  match process_core jparse gemini_response with
  | .ok r => r
  | .error _ => generate_fallback_analysis vital_signs

/-- `VitalSignsAnalyzer.analyze_vital_signs` (`ai_analysis.py` lines 28-48).
`advisory` is the outcome of the advisory-model path up to the raw text
response (prompt generation plus `_execute_gemini_analysis`; `.error`
models any exception raised there, including `ModelTimeout` and transport
failures).  Data preparation (`_prepare_analysis_data`) and prompt
rendering are total, and the patient profile feeds only the prompt; the
outer `except` turns every advisory-path failure into
`_generate_fallback_analysis(vital_signs)`. -/
def analyze_vital_signs (jparse : String → Option JValue)
    (advisory : Except Unit String) (vital_signs : List Reading)
    (patient_profile : Option PatientProfile) : AIAnalysisResponse :=
  match advisory with
  | .ok text => process_gemini_response jparse text vital_signs
  | .error _ => generate_fallback_analysis vital_signs

/-- An alert together with its `default_factory` fields from `models.py`
`Alert`: `id = uuid.uuid4()` and `timestamp = datetime.utcnow()`, drawn
fresh at construction time. -/
structure AlertFull extends Alert where
  id : String
  timestamp : Int
deriving DecidableEq, Repr

/-- `AIAnalysisResponse` with its `default_factory` fields `id` and
`timestamp` (`models.py` lines 137-138). -/
structure AIAnalysisResponseFull where
  id : String
  timestamp : Int
  analysis_summary : String
  health_status : String
  individual_assessments : List (String × String)
  combined_assessment : String
  recommendations : List String
  alerts_generated : List AlertFull
  confidence_score : ℚ
deriving DecidableEq, Repr

/-- Attach freshly drawn ids/timestamps to a list of alerts, one draw per
alert in construction order: the k-th constructed alert consumes draw
`c + k` of the supply. -/
def attachIds (ids : Nat → String) (times : Nat → Int) :
    Nat → List Alert → List AlertFull
  | _, [] => []
  | c, a :: rest => ⟨a, ids c, times c⟩ :: attachIds ids times (c + 1) rest

/-- `_generate_fallback_analysis` including the ambient `uuid4`/`utcnow`
draws of `models.py`: `ids`/`times` is the process-wide supply of fresh ids
and clock reads, `c` the number of draws already consumed; each `Alert` is
constructed (one draw) in loop order, then the `AIAnalysisResponse` itself
(one more draw).  Returns the response and the updated draw counter. -/
def generate_fallback_analysis_full (ids : Nat → String) (times : Nat → Int)
    (c : Nat) (vital_signs : List Reading) : AIAnalysisResponseFull × Nat :=
  let r := generate_fallback_analysis vital_signs
  let n := r.alerts_generated.length
  ({ id := ids (c + n)
     timestamp := times (c + n)
     analysis_summary := r.analysis_summary
     health_status := r.health_status
     individual_assessments := r.individual_assessments
     combined_assessment := r.combined_assessment
     recommendations := r.recommendations
     alerts_generated := attachIds ids times c r.alerts_generated
     confidence_score := r.confidence_score }, c + n + 1)

/-- Erase the generated `id`/`timestamp` fields of a full response. -/
def eraseIds (r : AIAnalysisResponseFull) : AIAnalysisResponse :=
  { analysis_summary := r.analysis_summary
    health_status := r.health_status
    individual_assessments := r.individual_assessments
    combined_assessment := r.combined_assessment
    recommendations := r.recommendations
    alerts_generated := r.alerts_generated.map (·.toAlert)
    confidence_score := r.confidence_score }

/-- Taking the last ten elements is idempotent. -/
lemma lastTen_lastTen (vs : List Reading) : lastTen (lastTen vs) = lastTen vs := by
  unfold lastTen
  rw [List.length_drop]
  have h : vs.length - (vs.length - 10) - 10 = 0 := by omega
  rw [h, List.drop_zero]

/-- Erasing the attached ids recovers the original alert list. -/
lemma attachIds_map_toAlert (ids : Nat → String) (times : Nat → Int) :
    ∀ (c : Nat) (l : List Alert),
      (attachIds ids times c l).map (·.toAlert) = l := by
  intro c l
  induction l generalizing c with
  | nil => rfl
  | cons a rest ih => simp [attachIds, ih]

/-- Erasing ids from the enriched fallback yields the core fallback. -/
lemma eraseIds_fallback_full (ids : Nat → String) (times : Nat → Int)
    (c : Nat) (vs : List Reading) :
    eraseIds (generate_fallback_analysis_full ids times c vs).1 =
      generate_fallback_analysis vs := by
  simp [eraseIds, generate_fallback_analysis_full, attachIds_map_toAlert]

/-- C2: on the fallback path, the five readings hr=150, bp=120, spo2=98,
temp=36.8, gsr=400 yield `health_status = "attention"` and exactly one
alert, with level `critical`, sensor type `heart_rate` and trigger value
150. -/
theorem fallback_scenario_hr150 :
    (generate_fallback_analysis
        [⟨some "heart_rate", some 150⟩, ⟨some "blood_pressure", some 120⟩,
         ⟨some "oxygen_saturation", some 98⟩, ⟨some "temperature", some (mkRat 184 5)⟩,
         ⟨some "gsr", some 400⟩]).health_status = "attention" ∧
    (generate_fallback_analysis
        [⟨some "heart_rate", some 150⟩, ⟨some "blood_pressure", some 120⟩,
         ⟨some "oxygen_saturation", some 98⟩, ⟨some "temperature", some (mkRat 184 5)⟩,
         ⟨some "gsr", some 400⟩]).alerts_generated.map
      (fun a => (a.level, a.sensor_type, a.trigger_value)) =
      [(AlertLevel.critical, some "heart_rate", some 150)] := by
  constructor <;> decide

/-- C3: a single heart-rate reading through the rule-based fallback: value
100 (the inclusive normal upper bound) generates no alert; value 101
generates exactly one `warning` alert; value 121 generates exactly one
`critical` alert (escalation boundary at the warning band's upper edge of
120). -/
theorem fallback_heart_rate_boundaries :
    (generate_fallback_analysis [⟨some "heart_rate", some 100⟩]).alerts_generated = [] ∧
    (generate_fallback_analysis [⟨some "heart_rate", some 101⟩]).alerts_generated.map
      (·.level) = [AlertLevel.warning] ∧
    (generate_fallback_analysis [⟨some "heart_rate", some 121⟩]).alerts_generated.map
      (·.level) = [AlertLevel.critical] := by
  refine ⟨?_, ?_, ?_⟩ <;> decide

/-- C6: the trend is a function of at most the last 3 values; on at least
two values it is `stable` when the absolute difference between the last and
first of those values is below 0.1 and otherwise follows the sign of the
difference; `[70, 72, 75]` is `increasing`, `[75, 72, 70]` is `decreasing`,
and `[70]` and `[]` are `stable`. -/
theorem calculate_trend_spec :
    (∀ values : List ℚ,
      calculate_trend values = calculate_trend (values.drop (values.length - 3))) ∧
    (∀ values : List ℚ, 2 ≤ values.length →
      calculate_trend values =
        (let recent := values.drop (values.length - 3)
         let diff := recent.getLastD 0 - recent.headD 0
         if pyAbs diff < mkRat 1 10 then "stable"
         else if 0 < diff then "increasing" else "decreasing")) ∧
    calculate_trend [70, 72, 75] = "increasing" ∧
    calculate_trend [75, 72, 70] = "decreasing" ∧
    calculate_trend [70] = "stable" ∧
    calculate_trend [] = "stable" := by
  have key : ∀ values : List ℚ, 2 ≤ values.length →
      calculate_trend values =
        (let recent := values.drop (values.length - 3)
         let diff := recent.getLastD 0 - recent.headD 0
         if pyAbs diff < mkRat 1 10 then "stable"
         else if 0 < diff then "increasing" else "decreasing") := by
    intro values h2
    unfold calculate_trend
    rw [if_neg (by omega)]
    by_cases h3 : 3 ≤ values.length
    · rw [if_pos h3, if_neg (by rw [List.length_drop]; omega)]
    · have h0 : values.length - 3 = 0 := by omega
      rw [if_neg h3, h0, List.drop_zero, if_neg (by omega)]
  refine ⟨?_, key, by norm_num [calculate_trend, pyAbs, Rat.mkRat_eq_div],
    by norm_num [calculate_trend, pyAbs, Rat.mkRat_eq_div], by decide, by decide⟩
  intro values
  by_cases h2 : 2 ≤ values.length
  · have hlen : 2 ≤ (values.drop (values.length - 3)).length := by
      rw [List.length_drop]; omega
    rw [key values h2, key _ hlen]
    have : values.drop (values.length - 3) =
        (values.drop (values.length - 3)).drop
          ((values.drop (values.length - 3)).length - 3) := by
      rw [List.length_drop]
      have h0 : values.length - (values.length - 3) - 3 = 0 := by omega
      rw [h0, List.drop_zero]
    rw [← this]
  · have h0 : values.length - 3 = 0 := by omega
    rw [h0, List.drop_zero]

/-- C6 witness: the claim instantiated at `[70, 72, 75]`. -/
theorem calculate_trend_spec_witness :
    calculate_trend [70, 72, 75] =
      (let recent := ([70, 72, 75] : List ℚ).drop (([70, 72, 75] : List ℚ).length - 3)
       let diff := recent.getLastD 0 - recent.headD 0
       if pyAbs diff < mkRat 1 10 then "stable"
       else if 0 < diff then "increasing" else "decreasing") :=
  calculate_trend_spec.2.1 [70, 72, 75] (by decide)

/-- C7: the rule-based fallback depends only on the last 10 elements of the
input sequence (all elements when fewer than 10 exist), and its health
status is `attention` exactly when at least one alert was generated and
`normal` otherwise. -/
theorem fallback_last_ten_and_status (vs : List Reading) :
    generate_fallback_analysis vs = generate_fallback_analysis (lastTen vs) ∧
    (vs.length ≤ 10 → lastTen vs = vs) ∧
    (generate_fallback_analysis vs).health_status =
      (if (generate_fallback_analysis vs).alerts_generated.isEmpty
       then "normal" else "attention") := by
  refine ⟨?_, ?_, rfl⟩
  · unfold generate_fallback_analysis
    rw [lastTen_lastTen]
  · intro h
    unfold lastTen
    have h0 : vs.length - 10 = 0 := by omega
    rw [h0, List.drop_zero]

/-- C7 witness: the claim instantiated at a concrete two-element sequence. -/
theorem fallback_last_ten_and_status_witness :
    lastTen [⟨some "heart_rate", some 150⟩, ⟨some "gsr", some 400⟩] =
      [⟨some "heart_rate", some 150⟩, ⟨some "gsr", some 400⟩] :=
  (fallback_last_ten_and_status
    [⟨some "heart_rate", some 150⟩, ⟨some "gsr", some 400⟩]).2.1 (by decide)

/-- The critical alert produced for a valueless reading of a thresholded
sensor type: value defaults to 0 and 0 lies outside every band. -/
def criticalZeroAlert (s : String) (b : Bands) : Alert :=
  { level := AlertLevel.critical
    title := fallbackTitle s
    message := fallbackMessage 0 b.normal
    sensor_type := some s
    trigger_value := some 0 }

/-- C10: a reading among the last 10 whose sensor type is in the threshold
table but which lacks a `value` field is evaluated with value 0
(`reading.get('value', 0)`), and since 0 lies outside every thresholded
type's normal and warning bands it always yields a `critical` alert with
trigger value 0 — it is not skipped. -/
theorem fallback_missing_value_zero (vs : List Reading) (r : Reading)
    (s : String) (b : Bands) (hmem : r ∈ lastTen vs)
    (hs : r.sensor_type = some s) (hb : thresholds s = some b)
    (hv : r.value = none) :
    alertOf r = some (criticalZeroAlert s b) ∧
    criticalZeroAlert s b ∈ (generate_fallback_analysis vs).alerts_generated := by
  have halert : alertOf r = some (criticalZeroAlert s b) := by
    obtain ⟨st, v⟩ := r
    replace hs : st = some s := hs
    replace hv : v = none := hv
    subst hs; subst hv
    unfold thresholds at hb
    split at hb
    case _ => injection hb with hbe; subst hbe; rfl
    case _ => injection hb with hbe; subst hbe; rfl
    case _ => injection hb with hbe; subst hbe; rfl
    case _ => injection hb with hbe; subst hbe; rfl
    case _ => injection hb with hbe; subst hbe; rfl
    case _ => exact absurd hb (by simp)
  refine ⟨halert, ?_⟩
  unfold generate_fallback_analysis
  exact List.mem_filterMap.mpr ⟨r, hmem, halert⟩

/-- C10 witness: a heart-rate reading with no `value` field. -/
theorem fallback_missing_value_zero_witness :
    criticalZeroAlert "heart_rate" ⟨(60, 100), (50, 120), (40, 150)⟩ ∈
      (generate_fallback_analysis [⟨some "heart_rate", none⟩]).alerts_generated :=
  (fallback_missing_value_zero [⟨some "heart_rate", none⟩]
    ⟨some "heart_rate", none⟩ "heart_rate" ⟨(60, 100), (50, 120), (40, 150)⟩
    (by decide) rfl rfl rfl).2


/-- C1: `analyze_vital_signs` absorbs every advisory-path failure: if prompt
dispatch or the model call raises (`advisory = .error`), or the model text is
handed over but response processing raises (`process_core = .error`), the
call still returns the rule-based fallback computed from the same readings —
by its type it always returns a well-formed `AIAnalysisResponse` and never
propagates an exception. -/
theorem analyze_absorbs_advisory_failures (jparse : String → Option JValue)
    (vs : List Reading) (profile : Option PatientProfile) :
    (∀ e : Unit, analyze_vital_signs jparse (.error e) vs profile =
      generate_fallback_analysis vs) ∧
    (∀ text : String, process_core jparse text = .error () →
      analyze_vital_signs jparse (.ok text) vs profile =
        generate_fallback_analysis vs) := by
  refine ⟨fun e => rfl, fun text h => ?_⟩
  simp [analyze_vital_signs, process_gemini_response, h]

/-- C1 witness: a model-call failure, and a processing failure on the text
`"\x7bbad\x7d"` (whose brace slice `json.loads` rejects), both produce the
fallback result. -/
theorem analyze_absorbs_advisory_failures_witness :
    analyze_vital_signs (fun _ => none) (.error ()) [] none =
      generate_fallback_analysis [] ∧
    process_core (fun _ => none) "\x7bbad\x7d" = .error () ∧
    analyze_vital_signs (fun _ => none) (.ok "\x7bbad\x7d") [] none =
      generate_fallback_analysis [] :=
  ⟨(analyze_absorbs_advisory_failures (fun _ => none) [] none).1 (),
   rfl,
   (analyze_absorbs_advisory_failures (fun _ => none) [] none).2 "\x7bbad\x7d" rfl⟩

/-- C4 counterexample: for the advisory text `"x\x7bbad\x7dy"` a brace pair
is found (first `\x7b` at 1, last `\x7d` at 5) and the slice `"\x7bbad\x7dy"`
fails to parse (`json.loads` raises on it, modelled by the parser returning
`none`), yet the reconciler returns the full rule-based fallback — its
confidence score is 0.6, not the degraded parser's 0.5, and its health
status is `normal`, not `attention` — refuting the claim that a failed parse
of the brace slice yields the degraded-text result. -/
theorem reconcile_parse_failure_counterexample :
    process_gemini_response (fun _ => none) "x\x7bbad\x7dy" [] =
      generate_fallback_analysis [] ∧
    pyFind "x\x7bbad\x7dy" '{' = 1 ∧
    pyRFind "x\x7bbad\x7dy" '}' = 5 ∧
    (process_gemini_response (fun _ => none) "x\x7bbad\x7dy" []).confidence_score ≠
      mkRat 1 2 ∧
    (process_gemini_response (fun _ => none) "x\x7bbad\x7dy" []).health_status ≠
      "attention" := by
  refine ⟨rfl, by decide, by decide, by decide, by decide⟩

/-- C4 amended: the degraded-text parser applies exactly when no
`\x7b`/`\x7d` pair is found — then the output has `health_status =
"attention"`, `confidence_score = 0.5` and no alerts (in particular for the
input `"no json here"`); when a brace pair IS found but the slice fails to
parse as JSON, the full rule-based fallback applies instead. -/
theorem reconcile_no_brace_degraded (jparse : String → Option JValue)
    (text : String) (vs : List Reading) :
    ((pyFind text '{' = -1 ∨ ¬ pyFind text '{' < pyRFind text '}' + 1) →
      (process_gemini_response jparse text vs).health_status = "attention" ∧
      (process_gemini_response jparse text vs).confidence_score = mkRat 1 2 ∧
      (process_gemini_response jparse text vs).alerts_generated = []) ∧
    ((pyFind text '{' ≠ -1 ∧ pyFind text '{' < pyRFind text '}' + 1 ∧
        jparse (pySlice text (pyFind text '{') (pyRFind text '}' + 1)) = none) →
      process_gemini_response jparse text vs = generate_fallback_analysis vs) := by
  constructor
  · intro h
    have hneg : ¬ (pyFind text '{' ≠ -1 ∧ pyFind text '{' < pyRFind text '}' + 1) := by
      rcases h with h | h
      · exact fun hc => hc.1 h
      · exact fun hc => h hc.2
    have hcore : process_core jparse text =
        .ok { analysis_summary := "Análise realizada: " ++ text.take 200 ++ "..."
              health_status := "attention"
              individual_assessments := []
              combined_assessment := "Análise baseada em resposta textual"
              recommendations := ["Consultar médico se sintomas persistirem"]
              alerts_generated := []
              confidence_score := mkRat 1 2 } := by
      simp only [process_core]
      rw [if_neg hneg]
      rfl
    simp [process_gemini_response, hcore]
  · intro h
    have hcore : process_core jparse text = .error () := by
      simp only [process_core]
      rw [if_pos ⟨h.1, h.2.1⟩, h.2.2]
      rfl
    simp [process_gemini_response, hcore]

/-- C4 amended witness: the degraded branch at `"no json here"` (no brace
pair) and the fallback branch at `"x\x7bbad\x7dy"` (brace pair present,
parse fails). -/
theorem reconcile_no_brace_degraded_witness :
    ((process_gemini_response (fun _ => none) "no json here" []).health_status =
        "attention" ∧
      (process_gemini_response (fun _ => none) "no json here" []).confidence_score =
        mkRat 1 2 ∧
      (process_gemini_response (fun _ => none) "no json here" []).alerts_generated =
        []) ∧
    process_gemini_response (fun _ => none) "x\x7bbad\x7dy" [] =
      generate_fallback_analysis [] :=
  ⟨(reconcile_no_brace_degraded (fun _ => none) "no json here" []).1
      (Or.inl (by decide)),
   (reconcile_no_brace_degraded (fun _ => none) "x\x7bbad\x7dy" []).2
      ⟨by decide, by decide, rfl⟩⟩

/-- C5 counterexample: two successive calls of the rule-based fallback on
the same five-reading sequence, in the same process (the second call
continues the fresh-id/clock supply where the first stopped, exactly as
consecutive `uuid.uuid4()` draws do), produce different `AIAnalysisResponse`
values — the alert generated by the first call carries id "0" while the
second call's alert carries id "2" — refuting strict identity of repeated
outputs. -/
theorem fallback_repeated_calls_differ :
    (generate_fallback_analysis_full (fun n => toString n) (fun n => (n : Int)) 0
        [⟨some "heart_rate", some 150⟩]).1 ≠
      (generate_fallback_analysis_full (fun n => toString n) (fun n => (n : Int))
          (generate_fallback_analysis_full (fun n => toString n) (fun n => (n : Int)) 0
            [⟨some "heart_rate", some 150⟩]).2
          [⟨some "heart_rate", some 150⟩]).1 := by
  intro h
  have := congrArg (fun r => r.alerts_generated.map (·.id)) h
  simp [generate_fallback_analysis_full, generate_fallback_analysis,
    attachIds, lastTen, alertOf] at this
  exact absurd this (by decide)

/-- C5 amended: the rule-based fallback is deterministic up to the freshly
drawn `id`/`timestamp` fields (of the response and of each alert): for any
two calls on the same reading sequence, whatever the id/clock supplies,
erasing those generated fields yields equal results, both equal to the pure
rule-based analysis — same status, assessments, recommendations, confidence
and same alert content. -/
theorem fallback_deterministic_up_to_ids (vs : List Reading)
    (ids1 ids2 : Nat → String) (times1 times2 : Nat → Int) (c1 c2 : Nat) :
    eraseIds (generate_fallback_analysis_full ids1 times1 c1 vs).1 =
      eraseIds (generate_fallback_analysis_full ids2 times2 c2 vs).1 ∧
    eraseIds (generate_fallback_analysis_full ids1 times1 c1 vs).1 =
      generate_fallback_analysis vs := by
  rw [eraseIds_fallback_full, eraseIds_fallback_full]
  exact ⟨rfl, rfl⟩

set_option maxRecDepth 4000 in
/-- C8 counterexample: (i) an alert entry whose `level` is present but
invalid (`"bogus"`) does not get the `warning` default — `AlertLevel(...)`
raises and the whole reconciliation returns the full rule-based fallback,
with no alert constructed at all; (ii) for a 512-character advisory text the
`ai_analysis` attached to a constructed alert is not truncated to at most
500 characters: it is the 500-character prefix plus `"..."`, 503 characters. -/
theorem reconcile_alert_defaults_counterexample :
    process_gemini_response
        (fun _ => some (.obj [("alerts", .arr [.obj [("level", .str "bogus")]])]))
        "\x7bx\x7d" [] = generate_fallback_analysis [] ∧
    (process_gemini_response
        (fun _ => some (.obj [("alerts", .arr [.obj [("level", .str "bogus")]])]))
        "\x7bx\x7d" []).alerts_generated = [] ∧
    (buildAlert ("\x7b" ++ String.mk (List.replicate 510 'a') ++ "\x7d")
        (.obj [])).toOption.map (fun a => a.ai_analysis.map String.length) =
      some (some 503) := by
  refine ⟨rfl, rfl, ?_⟩
  have hba : buildAlert ("\x7b" ++ String.mk (List.replicate 510 'a') ++ "\x7d")
      (.obj []) =
      .ok { level := .warning, title := "Alerta IA", message := "Anomalia detectada",
            sensor_type := none,
            ai_analysis := some (truncatedAnalysis
              ("\x7b" ++ String.mk (List.replicate 510 'a') ++ "\x7d")) } := rfl
  rw [hba]
  have h1 : ("\x7b" ++ String.mk (List.replicate 510 'a') ++ "\x7d").length = 512 := by
    decide
  have h2 : (truncatedAnalysis
      ("\x7b" ++ String.mk (List.replicate 510 'a') ++ "\x7d")).length = 503 := by
    unfold truncatedAnalysis
    rw [if_pos (by rw [h1]; norm_num)]
    rw [String.length_append, String.take_eq, String.length_mk, List.length_take]
    have h3 : ("\x7b" ++ String.mk (List.replicate 510 'a') ++ "\x7d").data.length =
        512 := h1
    rw [h3]
    decide
  show some (some (truncatedAnalysis
    ("\x7b" ++ String.mk (List.replicate 510 'a') ++ "\x7d")).length) = some (some 503)
  rw [h2]

/-- C8 amended: for every alert entry of a successfully parsed advisory
object, the constructed alert's `level` defaults to `warning` when the
entry's level is ABSENT, while a present-but-invalid level raises and aborts
the whole reconciliation (full rule-based fallback, no alert built); `title`
and `message` default to the generic placeholders when absent; and the
attached `ai_analysis` is the raw advisory text itself when it has at most
500 characters, and its 500-character prefix followed by `"..."` (503
characters) when longer. -/
theorem reconcile_alert_construction (gemini_response : String)
    (fs : List (String × JValue)) :
    (∀ a : Alert, buildAlert gemini_response (.obj fs) = .ok a →
      a.ai_analysis = some (truncatedAnalysis gemini_response) ∧
      (jget fs "level" = none → a.level = AlertLevel.warning) ∧
      (jget fs "title" = none → a.title = "Alerta IA") ∧
      (jget fs "message" = none → a.message = "Anomalia detectada")) ∧
    (truncatedAnalysis gemini_response =
      if 500 < gemini_response.length then gemini_response.take 500 ++ "..."
      else gemini_response) ∧
    (∀ s : String, jget fs "level" = some (.str s) →
      alertLevelOfString s = none → buildAlert gemini_response (.obj fs) = .error ()) := by
  refine ⟨?_, rfl, ?_⟩
  · intro a h
    simp only [buildAlert] at h
    split at h
    · next lvlStr title message hl ht hm =>
        split at h
        · next lvl hlev hsens =>
            injection h with h
            subst h
            refine ⟨rfl, fun hnone => ?_, fun hnone => ?_, fun hnone => ?_⟩
            · rw [hnone] at hl
              simp only [Option.getD_none, JValue.str.injEq] at hl
              subst hl
              simp_all [alertLevelOfString]
            · rw [hnone] at ht; simp_all
            · rw [hnone] at hm; simp_all
        · next lvl hlev hsens =>
            injection h with h
            subst h
            refine ⟨rfl, fun hnone => ?_, fun hnone => ?_, fun hnone => ?_⟩
            · rw [hnone] at hl
              simp only [Option.getD_none, JValue.str.injEq] at hl
              subst hl
              simp_all [alertLevelOfString]
            · rw [hnone] at ht; simp_all
            · rw [hnone] at hm; simp_all
        · next lvl st hlev hsens =>
            split at h
            · injection h with h
              subst h
              refine ⟨rfl, fun hnone => ?_, fun hnone => ?_, fun hnone => ?_⟩
              · rw [hnone] at hl
                simp only [Option.getD_none, JValue.str.injEq] at hl
                subst hl
                simp_all [alertLevelOfString]
              · rw [hnone] at ht; simp_all
              · rw [hnone] at hm; simp_all
            · exact absurd h (by simp)
        · exact absurd h (by simp)
    · exact absurd h (by simp)
  · intro s hs hbad
    simp only [buildAlert]
    rw [hs]
    cases h1 : (jget fs "title").getD (.str "Alerta IA") <;>
      cases h2 : (jget fs "message").getD (.str "Anomalia detectada") <;>
        simp [hbad]

/-- C8 amended witness: an entry with no fields at all gets every default
(level `warning`, placeholder title), and an entry with the invalid level
`"bogus"` makes the construction raise. -/
theorem reconcile_alert_construction_witness :
    ({ level := AlertLevel.warning, title := "Alerta IA",
       message := "Anomalia detectada", sensor_type := none,
       ai_analysis := some (truncatedAnalysis "x") : Alert }.level =
        AlertLevel.warning ∧
     { level := AlertLevel.warning, title := "Alerta IA",
       message := "Anomalia detectada", sensor_type := none,
       ai_analysis := some (truncatedAnalysis "x") : Alert }.title = "Alerta IA") ∧
    buildAlert "x" (.obj [("level", .str "bogus")]) = .error () :=
  ⟨⟨((reconcile_alert_construction "x" []).1
        { level := AlertLevel.warning, title := "Alerta IA",
          message := "Anomalia detectada", sensor_type := none,
          ai_analysis := some (truncatedAnalysis "x") } rfl).2.1 rfl,
    ((reconcile_alert_construction "x" []).1
        { level := AlertLevel.warning, title := "Alerta IA",
          message := "Anomalia detectada", sensor_type := none,
          ai_analysis := some (truncatedAnalysis "x") } rfl).2.2.1 rfl⟩,
   (reconcile_alert_construction "x" [("level", .str "bogus")]).2.2 "bogus" rfl rfl⟩

/-- The readings of `vs` whose grouping key (`sensor_type` defaulted to
`"unknown"`) is `s`. -/
def filterKey (s : String) (vs : List Reading) : List Reading :=
  vs.filter (fun r => r.sensor_type.getD "unknown" = s)

/-- Looking a key up after a `dictAppend`: the appended key's list grows by
the appended element, every other key is untouched. -/
lemma dictFind_dictAppend (d : List (String × List Reading)) (k s : String)
    (r : Reading) :
    dictFind (dictAppend d k r) s =
      if k = s then some ((dictFind d s).getD [] ++ [r]) else dictFind d s := by
  induction d with
  | nil =>
    by_cases hk : k = s <;> simp [dictAppend, dictFind, hk]
  | cons p d ih =>
    obtain ⟨k0, rs⟩ := p
    by_cases h0 : k0 = k
    · subst h0
      by_cases hs0 : k0 = s <;> simp [dictAppend, dictFind, hs0]
    · by_cases hs0 : k0 = s
      · subst hs0
        have hk : ¬ k = k0 := fun h => h0 h.symm
        simp [dictAppend, dictFind, h0, hk]
      · simp [dictAppend, dictFind, h0, hs0, ih]

/-- Looking a key up in the grouping fold of `_prepare_analysis_data`: the
result extends the accumulator's entry with exactly the readings keyed by
`s`, in arrival order. -/
lemma dictFind_groupFold (vs : List Reading) (d : List (String × List Reading))
    (s : String) :
    dictFind (vs.foldl (fun d r => dictAppend d (r.sensor_type.getD "unknown") r) d) s =
      (match dictFind d s with
       | some rs => some (rs ++ filterKey s vs)
       | none => if (filterKey s vs).isEmpty then none
                 else some (filterKey s vs)) := by
  induction vs generalizing d with
  | nil =>
    cases h : dictFind d s <;> simp [filterKey, h]
  | cons r vs ih =>
    rw [List.foldl_cons, ih, dictFind_dictAppend]
    by_cases hk : r.sensor_type.getD "unknown" = s
    · have hfk : filterKey s (r :: vs) = r :: filterKey s vs := by
        simp [filterKey, hk]
      rw [if_pos hk, hfk]
      cases h : dictFind d s <;> simp
    · have hfk : filterKey s (r :: vs) = filterKey s vs := by
        simp [filterKey, hk]
      rw [if_neg hk, hfk]

/-- Membership in the keys of a `dictAppend`. -/
lemma mem_keys_dictAppend (d : List (String × List Reading)) (k x : String)
    (r : Reading) :
    x ∈ (dictAppend d k r).map Prod.fst ↔ x ∈ d.map Prod.fst ∨ x = k := by
  induction d with
  | nil => simp [dictAppend]
  | cons p d ih =>
    obtain ⟨k0, rs⟩ := p
    by_cases h0 : k0 = k
    · simp only [dictAppend, if_pos h0, List.map_cons, List.mem_cons]
      subst h0
      tauto
    · simp only [dictAppend, if_neg h0, List.map_cons, List.mem_cons, ih]
      tauto

/-- `dictAppend` preserves distinctness of keys. -/
lemma nodup_keys_dictAppend (d : List (String × List Reading)) (k : String)
    (r : Reading) (h : (d.map Prod.fst).Nodup) :
    ((dictAppend d k r).map Prod.fst).Nodup := by
  induction d with
  | nil => simp [dictAppend]
  | cons p d ih =>
    obtain ⟨k0, rs⟩ := p
    simp only [List.map_cons, List.nodup_cons] at h
    by_cases h0 : k0 = k
    · simp only [dictAppend, if_pos h0, List.map_cons, List.nodup_cons]
      exact h
    · simp only [dictAppend, if_neg h0, List.map_cons, List.nodup_cons]
      refine ⟨?_, ih h.2⟩
      rw [mem_keys_dictAppend]
      rintro (hmem | hmem)
      · exact h.1 hmem
      · exact h0 hmem

/-- The grouping fold of `_prepare_analysis_data` produces distinct keys. -/
lemma nodup_keys_groupFold (vs : List Reading)
    (d : List (String × List Reading)) (h : (d.map Prod.fst).Nodup) :
    ((vs.foldl (fun d r => dictAppend d (r.sensor_type.getD "unknown") r) d).map
      Prod.fst).Nodup := by
  induction vs generalizing d with
  | nil => exact h
  | cons r vs ih =>
    rw [List.foldl_cons]
    exact ih _ (nodup_keys_dictAppend d _ r h)

/-- A key absent from a grouping has no statistics entry. -/
lemma dictFind_statsList_of_not_mem (d : List (String × List Reading))
    (s : String) (h : s ∉ d.map Prod.fst) :
    dictFind (d.filterMap (fun p => (statsOfGroup p.2).map (fun st => (p.1, st)))) s =
      none := by
  induction d with
  | nil => rfl
  | cons p d ih =>
    obtain ⟨k0, rs⟩ := p
    simp only [List.map_cons, List.mem_cons] at h
    push_neg at h
    cases hst : statsOfGroup rs with
    | none => simpa [hst] using ih h.2
    | some st =>
      have : ¬ k0 = s := fun he => h.1 he.symm
      simpa [hst, dictFind, this] using ih h.2

/-- On a grouping with distinct keys, looking up the statistics list equals
looking up the group and computing its statistics. -/
lemma dictFind_statsList (d : List (String × List Reading)) (s : String)
    (h : (d.map Prod.fst).Nodup) :
    dictFind (d.filterMap (fun p => (statsOfGroup p.2).map (fun st => (p.1, st)))) s =
      (dictFind d s).bind statsOfGroup := by
  induction d with
  | nil => rfl
  | cons p d ih =>
    obtain ⟨k0, rs⟩ := p
    simp only [List.map_cons, List.nodup_cons] at h
    by_cases hs0 : k0 = s
    · subst hs0
      cases hst : statsOfGroup rs with
      | some st => simp [hst, dictFind]
      | none =>
        simp [hst, dictFind, dictFind_statsList_of_not_mem d k0 h.1]
    · cases hst : statsOfGroup rs with
      | some st => simp [hst, dictFind, hs0, ih h.2]
      | none => simp [hst, dictFind, hs0, ih h.2]

/-- Readings without a `value` contribute nothing to the extracted values. -/
lemma filterMap_value_filter (l : List Reading) :
    (l.filter (fun r => r.value.isSome)).filterMap (fun r => r.value) =
      l.filterMap (fun r => r.value) := by
  induction l with
  | nil => rfl
  | cons r l ih =>
    cases hv : r.value <;> simp [List.filter_cons, hv, ih]

/-- Group statistics are a function of the present values only. -/
lemma statsOfGroup_filter_value (l : List Reading) :
    statsOfGroup (l.filter (fun r => r.value.isSome)) = statsOfGroup l := by
  unfold statsOfGroup
  rw [filterMap_value_filter]

/-- Key filtering commutes with value filtering. -/
lemma filterKey_filter_value (s : String) (vs : List Reading) :
    filterKey s (vs.filter (fun r => r.value.isSome)) =
      (filterKey s vs).filter (fun r => r.value.isSome) := by
  induction vs with
  | nil => rfl
  | cons r vs ih =>
    by_cases hv : r.value.isSome <;> by_cases hk : r.sensor_type.getD "unknown" = s <;>
      simp [filterKey, List.filter_cons, hv, hk] at ih ⊢ <;> exact ih

/-- Looking up a group in the fold and computing its statistics equals
computing the statistics of the arrival-ordered readings with that key. -/
lemma groupFold_bind_stats (vs : List Reading) (s : String) :
    (dictFind (vs.foldl (fun d r => dictAppend d (r.sensor_type.getD "unknown") r) []) s).bind
      statsOfGroup = statsOfGroup (filterKey s vs) := by
  rw [dictFind_groupFold]
  simp only [dictFind]
  by_cases he : (filterKey s vs).isEmpty
  · rw [if_pos he]
    rw [List.isEmpty_iff.mp he]
    rfl
  · rw [if_neg he]
    rfl

/-- The statistics entry of `_prepare_analysis_data` for a sensor type is the
statistics of the readings with that key. -/
lemma dictFind_prepare_stats (vs : List Reading) (profile : Option PatientProfile)
    (s : String) :
    dictFind (prepare_analysis_data vs profile).statistics s =
      statsOfGroup (filterKey s vs) := by
  show dictFind ((vs.foldl (fun d r => dictAppend d (r.sensor_type.getD "unknown") r)
    []).filterMap (fun p => (statsOfGroup p.2).map (fun st => (p.1, st)))) s = _
  rw [dictFind_statsList _ s (nodup_keys_groupFold vs [] (by simp))]
  exact groupFold_bind_stats vs s

/-- C9: in the Reading Aggregator, a reading with no `value` field is
excluded from its sensor type's statistics — the statistics lookup is
unchanged by dropping all valueless readings — but the reading itself is
still present in `grouped_data` under its sensor type's key; and the empty
input sequence yields an empty statistics mapping and `total_readings = 0`
without error. -/
theorem prepare_missing_value_contract (vs : List Reading)
    (profile : Option PatientProfile) :
    ((prepare_analysis_data [] profile).statistics = [] ∧
     (prepare_analysis_data [] profile).total_readings = 0) ∧
    (∀ r, r ∈ vs → r.value = none →
      r ∈ (dictFind (prepare_analysis_data vs profile).grouped_data
            (r.sensor_type.getD "unknown")).getD []) ∧
    (∀ s, dictFind (prepare_analysis_data vs profile).statistics s =
      dictFind (prepare_analysis_data (vs.filter (fun r => r.value.isSome))
          profile).statistics s) := by
  refine ⟨⟨rfl, rfl⟩, ?_, ?_⟩
  · intro r hr hv
    show r ∈ (dictFind (vs.foldl
      (fun d r => dictAppend d (r.sensor_type.getD "unknown") r) [])
      (r.sensor_type.getD "unknown")).getD []
    rw [dictFind_groupFold]
    simp only [dictFind]
    have hrk : r ∈ filterKey (r.sensor_type.getD "unknown") vs := by
      simp [filterKey, List.mem_filter, hr]
    have hne : ¬ (filterKey (r.sensor_type.getD "unknown") vs).isEmpty := by
      intro he
      rw [List.isEmpty_iff.mp he] at hrk
      exact absurd hrk (List.not_mem_nil r)
    rw [if_neg hne]
    simpa using hrk
  · intro s
    rw [dictFind_prepare_stats, dictFind_prepare_stats, filterKey_filter_value,
      statsOfGroup_filter_value]

/-- C9 witness: a single heart-rate reading with no `value` is kept in its
group. -/
theorem prepare_missing_value_contract_witness :
    (⟨some "heart_rate", none⟩ : Reading) ∈
      (dictFind (prepare_analysis_data [⟨some "heart_rate", none⟩] none).grouped_data
        ((some "heart_rate").getD "unknown")).getD [] :=
  (prepare_missing_value_contract [⟨some "heart_rate", none⟩] none).2.1
    ⟨some "heart_rate", none⟩ (by simp) rfl
